import Mathlib

/-!
Verification of the banking product-recommendation pipeline
(`classify_product.py` and `azure_notification_generator.py`).

Shallow embedding conventions:
* Python dicts are association lists `List (String × _)` with unique keys in
  insertion order; `dict[k] = v` on an existing key updates the value in place
  (`insertUpdate`), on a fresh key it appends.
* Python floats are exact rationals `ℚ`.  `float` literals such as `0.9` denote
  the exact decimal value; float rounding error plays no role in any claim.
* `int(x)` truncates toward zero (`pyInt`); Python 3 `round` is
  round-half-to-even (`pyRound`).
* Function and field names follow the source where Lean allows it.

The rational arithmetic of Batteries is marked `@[irreducible]`, which blocks
`decide` on concrete runs of the pipeline; re-marking it semireducible only
restores unfolding for elaboration and changes no proof obligation.
-/

set_option allowUnsafeReducibility true

attribute [semireducible] Rat.ofScientific Rat.mul Rat.inv Rat.add Rat.sub

/-- `int(x)` in Python: truncation of a rational toward zero. -/
def pyInt (q : ℚ) : ℤ :=
  if 0 ≤ q then q.floor else -((-q).floor)

/-- Python 3 `round(x)`: round half to even, returning an integer. -/
def pyRound (q : ℚ) : ℤ :=
  let f := q.floor
  let r := q - (f : ℚ)
  if r < 1/2 then f
  else if 1/2 < r then f + 1
  else if f % 2 = 0 then f else f + 1

/-- `max(0, min(1, v))`: clamp a score into `[0, 1]`. -/
def clamp01 (v : ℚ) : ℚ := max 0 (min 1 v)

/-- `d[k] = v` on a Python dict: update in place if the key exists, else append. -/
def insertUpdate (k : String) (v : ℚ) (l : List (String × ℚ)) : List (String × ℚ) :=
  if l.any (fun kv => kv.1 = k) then
    l.map (fun kv => if kv.1 = k then (k, v) else kv)
  else
    l ++ [(k, v)]

/-- `d.get(k, default)` on an integer-valued Python dict. -/
def lookupD (l : List (String × ℤ)) (k : String) (default : ℤ) : ℤ :=
  match l.find? (fun kv => kv.1 = k) with
  | some kv => kv.2
  | none => default

/-- One step of the stable descending insertion modelling
`sorted(items, key=lambda x: x[1], reverse=True)`: a later element goes after
every earlier element whose score is at least as large. -/
def insertDesc (x : String × ℚ) : List (String × ℚ) → List (String × ℚ)
  | [] => [x]
  | y :: ys => if x.2 < y.2 then y :: insertDesc x ys else x :: y :: ys

/-- Stable sort by score, descending (Python `sorted(..., reverse=True)`). -/
def sortDesc : List (String × ℚ) → List (String × ℚ)
  | [] => []
  | a :: rest => insertDesc a (sortDesc rest)

/-- Lexicographic order on code points, the string order of Python and of
pandas' sorted indexes. -/
def charListLt : List Char → List Char → Bool
  | _, [] => false
  | [], _ :: _ => true
  | x :: xs, y :: ys =>
    if x.toNat < y.toNat then true
    else if y.toNat < x.toNat then false
    else charListLt xs ys

/-- See `charListLt`. -/
def strLt (a b : String) : Bool := charListLt a.data b.data

/-- One step of the ascending-by-key insertion sort modelling the sorted group
keys that `pandas.groupby(..., sort=True)` produces. -/
def insertAsc (x : String × ℚ) : List (String × ℚ) → List (String × ℚ)
  | [] => [x]
  | y :: ys => if strLt y.1 x.1 then y :: insertAsc x ys else x :: y :: ys

/-- Sort an association list by key, ascending. -/
def sortByKeyAsc : List (String × ℚ) → List (String × ℚ)
  | [] => []
  | a :: rest => insertAsc a (sortByKeyAsc rest)

/-- Accumulate `(key, amount)` rows into per-key sums, first-seen key order. -/
def addToGroup (l : List (String × ℚ)) (k : String) (v : ℚ) : List (String × ℚ) :=
  if l.any (fun kv => kv.1 = k) then
    l.map (fun kv => if kv.1 = k then (kv.1, kv.2 + v) else kv)
  else
    l ++ [(k, v)]

/-- `df.groupby(col)[amount].sum().to_dict()`: per-key sums with the sorted key
order pandas' default `sort=True` produces. -/
def groupSum (rows : List (String × ℚ)) : List (String × ℚ) :=
  sortByKeyAsc (rows.foldl (fun acc kv => addToGroup acc kv.1 kv.2) [])

/-- Substring test on character lists (Python `needle in haystack`). -/
def containsSub (hay need : List Char) : Bool :=
  if need.isPrefixOf hay then true
  else
    match hay with
    | [] => need.isEmpty
    | _ :: t => containsSub t need

/-- `max(d, key=d.get)` on a non-empty Python dict: the first key attaining the
maximal value (Python `max` keeps the earlier element on ties).  Returns `""`
on the empty list, a case the source never reaches. -/
def pyMaxByVal : List (String × ℚ) → String
  | [] => ""
  | kv :: rest => (rest.foldl (fun best y => if best.2 < y.2 then y else best) kv).1

/-! ## Data model (`ClientAnalyzer.__init__` column sets) -/

/-- A row of `clients.csv`. -/
structure ClientRecord where
  client_code : ℕ
  name : String
  age : ℤ
  status : String
  avg_monthly_balance_KZT : ℚ
  city : String
deriving DecidableEq

/-- A row of the transaction log.  Dates are coded as day numbers, which is all
`_calculate_transaction_frequency` uses of them. -/
structure TransactionEvent where
  client_code : ℕ
  date : ℤ
  category : String
  currency : String
  amount : ℚ
deriving DecidableEq

/-- A row of the transfer log. -/
structure TransferEvent where
  client_code : ℕ
  date : ℤ
  type : String
  currency : String
  amount : ℚ
deriving DecidableEq

/-- The three dataframes held by `ClientAnalyzer`. -/
structure Tables where
  clients : List ClientRecord
  transactions : List TransactionEvent
  transfers : List TransferEvent
deriving DecidableEq

/-- Result of `_calculate_transaction_frequency`; `total_operations` is absent
from the returned dict when both logs are empty for the client. -/
structure TransactionFrequency where
  monthly_avg_transactions : ℚ
  monthly_avg_transfers : ℚ
  total_operations : Option ℕ
deriving DecidableEq

/-- Result of `_analyze_spending_patterns` for a client with transaction rows. -/
structure SpendingPatterns where
  total_spending : ℚ
  avg_transaction_amount : ℚ
  max_transaction : ℚ
  min_transaction : ℚ
  most_frequent_category : Option String
  category_diversity : ℕ
deriving DecidableEq

/-- The comprehensive profile dict built by
`ClientAnalyzer.get_comprehensive_client_profile`.  `spending_patterns` is
`none` when the client has no transaction rows (the empty dict in Python). -/
structure ClientProfile where
  client_info : ClientRecord
  category_spending : List (String × ℚ)
  type_spending : List (String × ℚ)
  currencies_used : List String
  avg_monthly_balance_KZT : Option ℚ
  transaction_frequency : TransactionFrequency
  spending_patterns : Option SpendingPatterns
deriving DecidableEq

/-! ## Event aggregation (`ClientAnalyzer`) -/

/-- `get_category_spending`: rows of the transaction log matching the client,
summed by category; the empty dict when there are no matching rows. -/
def get_category_spending (t : Tables) (c : ℕ) : List (String × ℚ) :=
  let client_transactions := t.transactions.filter (fun r => r.client_code == c)
  if client_transactions.isEmpty then []
  else groupSum (client_transactions.map (fun r => (r.category, r.amount)))

/-- `get_type_spending`: the analogous grouping over the transfer log. -/
def get_type_spending (t : Tables) (c : ℕ) : List (String × ℚ) :=
  let client_transfers := t.transfers.filter (fun r => r.client_code == c)
  if client_transfers.isEmpty then []
  else groupSum (client_transfers.map (fun r => (r.type, r.amount)))

/-- `get_currencies_used`: distinct currencies from either log.  Python builds
`list(set(...))`, whose iteration order is unspecified; the embedding fixes
first-seen order, and no claim depends on the order. -/
def get_currencies_used (t : Tables) (c : ℕ) : List String :=
  let transactions_currencies :=
    ((t.transactions.filter (fun r => r.client_code == c)).map (fun r => r.currency)).eraseDups
  let transfers_currencies :=
    ((t.transfers.filter (fun r => r.client_code == c)).map (fun r => r.currency)).eraseDups
  (transactions_currencies ++ transfers_currencies).eraseDups

/-- `get_avg_monthly_balance`: the client row's balance, `None` if absent. -/
def get_avg_monthly_balance (t : Tables) (c : ℕ) : Option ℚ :=
  (t.clients.find? (fun r => r.client_code == c)).map (fun r => r.avg_monthly_balance_KZT)

/-- `pandas.Series.mode().iloc[0]`: among the values of maximal multiplicity,
the least in lexicographic order (pandas returns the modes sorted). -/
def pandasMode (l : List String) : Option String :=
  let counts := l.foldl (fun acc k => addToGroup acc k 1) []
  match counts with
  | [] => none
  | c :: cs =>
    let m := cs.foldl (fun b kv => max b kv.2) c.2
    match ((c :: cs).filter (fun kv => kv.2 = m)).map (fun kv => kv.1) with
    | [] => none
    | d :: ds => some (ds.foldl (fun m' s => if strLt s m' then s else m') d)

/-- `_calculate_transaction_frequency`: monthly averages over the day span of
both logs, clamped to at least one month. -/
def calculate_transaction_frequency (t : Tables) (c : ℕ) : TransactionFrequency :=
  let client_transactions := t.transactions.filter (fun r => r.client_code == c)
  let client_transfers := t.transfers.filter (fun r => r.client_code == c)
  match (client_transactions.map (fun r => r.date)) ++ (client_transfers.map (fun r => r.date)) with
  | [] => { monthly_avg_transactions := 0, monthly_avg_transfers := 0, total_operations := none }
  | d :: ds =>
    let date_range_months : ℚ := max ((((ds.foldl max d) - (ds.foldl min d) : ℤ) : ℚ) / 30) 1
    { monthly_avg_transactions := (client_transactions.length : ℚ) / date_range_months,
      monthly_avg_transfers := (client_transfers.length : ℚ) / date_range_months,
      total_operations := some (client_transactions.length + client_transfers.length) }

/-- `_analyze_spending_patterns`: aggregate statistics of the client's
transaction amounts, `none` (the empty dict) when there are no rows. -/
def analyze_spending_patterns (t : Tables) (c : ℕ) : Option SpendingPatterns :=
  match t.transactions.filter (fun r => r.client_code == c) with
  | [] => none
  | r :: rs =>
    some { total_spending := ((r :: rs).map (fun x => x.amount)).foldl (· + ·) 0,
           avg_transaction_amount :=
             (((r :: rs).map (fun x => x.amount)).foldl (· + ·) 0) / ((r :: rs).length : ℚ),
           max_transaction := rs.foldl (fun b x => max b x.amount) r.amount,
           min_transaction := rs.foldl (fun b x => min b x.amount) r.amount,
           most_frequent_category := pandasMode ((r :: rs).map (fun x => x.category)),
           category_diversity := (((r :: rs).map (fun x => x.category)).eraseDups).length }

/-- `get_comprehensive_client_profile`: the profile dict, or the
`{"error": "Client not found"}` dict when the client id has no row. -/
def get_comprehensive_client_profile (t : Tables) (c : ℕ) : Except String ClientProfile :=
  match t.clients.find? (fun r => r.client_code == c) with
  | none => .error "Client not found"
  | some info =>
    .ok { client_info := info,
          category_spending := get_category_spending t c,
          type_spending := get_type_spending t c,
          currencies_used := get_currencies_used t c,
          avg_monthly_balance_KZT := get_avg_monthly_balance t c,
          transaction_frequency := calculate_transaction_frequency t c,
          spending_patterns := analyze_spending_patterns t c }

/-! ## Product catalog and rule-based scorer (`ProductRecommendationEngine`) -/

/-- The keys of the fixed dict built by `_initialize_products`, in source
order.  The `Product` dataclass payloads (descriptions, feature tags) are
consulted by no code path the claims touch, so only the key set is embedded. -/
def catalogNames : List String :=
  ["Карта для путешествий", "Премиальная карта", "Кредитная карта", "Обмен валют",
   "Кредит наличными", "Депозит Мультивалютный", "Депозит Сберегательный",
   "Депозит Накопительный", "Инвестиции", "Золотые слитки"]

/-- Rendering of a rational in place of Python's `str` of a float.  It differs
from CPython's float repr in notation, but like it contains no alphabetic
characters, which is all the substring test below can observe. -/
def amountStr (q : ℚ) : String :=
  toString q.num ++ (if q.den = 1 then ".0" else "." ++ toString q.den)

/-- `str(categories)` on the category-spending dict: `{'key': value, ...}`. -/
def pyDictStr (l : List (String × ℚ)) : String :=
  "\x7b" ++ String.intercalate ", "
    (l.map (fun kv => "'" ++ kv.1 ++ "': " ++ amountStr kv.2)) ++ "\x7d"

/-- `'travel' in str(categories).lower() or 'transport' in str(categories).lower()`.
`str.lower` only moves ASCII letters here (Lean's `Char.toLower`); the Cyrillic
category names contain no ASCII letters and both needles are pure ASCII, so the
test agrees with Python's on the alphabetic content it inspects. -/
def travelKeyTest (categories : List (String × ℚ)) : Bool :=
  let s := (pyDictStr categories).data.map Char.toLower
  containsSub s "travel".data || containsSub s "transport".data

/-- Balance-band rule of `_rule_based_classification` (`if balance > 6000000
... elif balance > 1000000 ...`). -/
def highBalanceRule (balance : ℚ) (r : List (String × ℚ)) : List (String × ℚ) :=
  if 6000000 < balance then
    insertUpdate "Депозит Сберегательный" 0.8 (insertUpdate "Премиальная карта" 0.9 r)
  else if 1000000 < balance then
    insertUpdate "Депозит Накопительный" 0.75 (insertUpdate "Премиальная карта" 0.7 r)
  else r

/-- Multi-currency rule (`len(currencies) > 2`). -/
def multiCurrencyRule (currencies : List String) (r : List (String × ℚ)) : List (String × ℚ) :=
  if 2 < currencies.length then
    insertUpdate "Депозит Мультивалютный" 0.8 (insertUpdate "Обмен валют" 0.85 r)
  else r

/-- Travel-spending rule (substring test on `str(categories)`). -/
def travelRule (categories : List (String × ℚ)) (r : List (String × ℚ)) : List (String × ℚ) :=
  if travelKeyTest categories then insertUpdate "Карта для путешествий" 0.85 r else r

/-- Category-diversity rule (`patterns.get('category_diversity', 0) > 5`). -/
def diversityRule (patterns : Option SpendingPatterns) (r : List (String × ℚ)) : List (String × ℚ) :=
  if 5 < (patterns.map (fun p => p.category_diversity)).getD 0 then
    insertUpdate "Кредитная карта" 0.7 r
  else r

/-- Low-balance-but-active rule (`balance < 500000 and total_spending >
balance * 2`). -/
def lowBalanceActiveRule (balance : ℚ) (patterns : Option SpendingPatterns)
    (r : List (String × ℚ)) : List (String × ℚ) :=
  if balance < 500000 ∧ balance * 2 < (patterns.map (fun p => p.total_spending)).getD 0 then
    insertUpdate "Кредитная карта" 0.75 (insertUpdate "Кредит наличными" 0.6 r)
  else r

/-- Investment-potential rule (`balance > 2000000`). -/
def investmentRule (balance : ℚ) (r : List (String × ℚ)) : List (String × ℚ) :=
  if 2000000 < balance then
    insertUpdate "Золотые слитки" 0.6 (insertUpdate "Инвестиции" 0.7 r)
  else r

/-- `_rule_based_classification`: the six rule blocks applied in source order
to an initially empty dict; a later block updates a key an earlier one set. -/
def rule_based_classification (client_profile : ClientProfile) : List (String × ℚ) :=
  let balance := client_profile.avg_monthly_balance_KZT.getD 0
  let currencies := client_profile.currencies_used
  let categories := client_profile.category_spending
  let patterns := client_profile.spending_patterns
  investmentRule balance
    (lowBalanceActiveRule balance patterns
      (diversityRule patterns
        (travelRule categories
          (multiCurrencyRule currencies
            (highBalanceRule balance [])))))

/-! ## LLM response parsing (`_parse_recommendations`)

`_parse_recommendations` runs `re.search(r'\x7b.*\x7d', text, re.DOTALL)` —
with the greedy `.*` this matches from the *first* `\x7b` of the text to the
*last* `\x7d` — feeds the match to `json.loads`, then walks the resulting
dict: the value of every in-catalog key is coerced with `float(...)` and
clamped by `max(0, min(1, _))`; keys outside the catalog keep their parsed
value whatever its type.  Any exception (no regex match, a `json.loads`
error, or a failing `float(...)` on an in-catalog value) yields the empty
dict.

The JSON reader below implements the `json.loads` grammar: objects, arrays,
strings with escape sequences (including `\uXXXX` and surrogate pairs),
strict numbers (no leading zeros; fractions and exponents), `true`, `false`,
`null`, and CPython's `Infinity`/`-Infinity`/`NaN` extensions.  `float` on a
string implements Python's grammar: optional surrounding whitespace, a sign,
digit runs with underscore separators, optional fraction and exponent, and
`inf`/`infinity`/`nan` case-insensitively.

Boundary of the embedding, stated rather than assumed:
* numbers are kept at their exact rational value; the IEEE-754 rounding,
  the overflow to infinity near `1.8e308` and the underflow to zero that
  `float` applies to extreme literals are outside the rational embedding,
  as is the int/float distinction (both are exact here);
* `±Infinity`/`NaN` are represented and clamped exactly as Python's
  `max`/`min` treat them (`inf`, `nan` ↦ `1`; `-inf` ↦ `0`);
* a lone UTF-16 surrogate in a `\u` escape, which Python keeps in its
  string, has no Lean `Char`, and the non-ASCII decimal digits `float`
  folds are not modelled: both make the model parser fail.  No claim
  touches these. -/

/-- A Python value produced by `json.loads`. -/
inductive JsonVal where
  | num (q : ℚ)
  | inf
  | ninf
  | nan
  | str (s : String)
  | bool (b : Bool)
  | null
  | arr (elems : List JsonVal)
  | obj (members : List (String × JsonVal))

/-- A Python `float` value as `float(...)` can produce it here. -/
inductive PyFloatVal where
  | fin (q : ℚ)
  | pinf
  | ninf
  | nan
deriving DecidableEq

/-- Whitespace skipping of the JSON grammar. -/
def skipWs : List Char → List Char
  | c :: cs => if c = ' ' ∨ c = '\n' ∨ c = '\t' ∨ c = '\r' then skipWs cs else c :: cs
  | [] => []

/-- `d[k] = v` on a JSON-valued Python dict: the dict `json.loads` builds
keeps the first position and last value of a duplicated key. -/
def insertUpdateJson (k : String) (v : JsonVal) (l : List (String × JsonVal)) :
    List (String × JsonVal) :=
  if l.any (fun kv => kv.1 = k) then
    l.map (fun kv => if kv.1 = k then (k, v) else kv)
  else
    l ++ [(k, v)]

/-- Value of a hexadecimal digit. -/
def hexVal (c : Char) : Option ℕ :=
  if 48 ≤ c.toNat ∧ c.toNat ≤ 57 then some (c.toNat - 48)
  else if 97 ≤ c.toNat ∧ c.toNat ≤ 102 then some (c.toNat - 87)
  else if 65 ≤ c.toNat ∧ c.toNat ≤ 70 then some (c.toNat - 55)
  else none

/-- Characters of a JSON string body up to the closing quote, decoding the
escapes `json.loads` accepts; unescaped control characters are rejected as in
its default strict mode.  The fuel is ample: each step consumes input. -/
def strChars (fuel : ℕ) (cs : List Char) : Option (List Char × List Char) :=
  match fuel with
  | 0 => none
  | fuel + 1 =>
    match cs with
    | [] => none
    | c :: cs1 =>
      if c = '"' then some ([], cs1)
      else if c = '\\' then
        match cs1 with
        | [] => none
        | e :: cs2 =>
          if e = 'u' then
            match cs2 with
            | h1 :: h2 :: h3 :: h4 :: cs3 =>
              match hexVal h1, hexVal h2, hexVal h3, hexVal h4 with
              | some a, some b, some c', some d =>
                let code := ((a * 16 + b) * 16 + c') * 16 + d
                if 55296 ≤ code ∧ code ≤ 56319 then
                  match cs3 with
                  | '\\' :: 'u' :: g1 :: g2 :: g3 :: g4 :: cs4 =>
                    match hexVal g1, hexVal g2, hexVal g3, hexVal g4 with
                    | some a2, some b2, some c2, some d2 =>
                      let low := ((a2 * 16 + b2) * 16 + c2) * 16 + d2
                      if 56320 ≤ low ∧ low ≤ 57343 then
                        match strChars fuel cs4 with
                        | some (s, rest) =>
                          some (Char.ofNat (65536 + (code - 55296) * 1024 + (low - 56320)) :: s,
                            rest)
                        | none => none
                      else none
                    | _, _, _, _ => none
                  | _ => none
                else if 56320 ≤ code ∧ code ≤ 57343 then none
                else
                  match strChars fuel cs3 with
                  | some (s, rest) => some (Char.ofNat code :: s, rest)
                  | none => none
              | _, _, _, _ => none
            | _ => none
          else
            match
              (if e = '"' then some '"'
               else if e = '\\' then some '\\'
               else if e = '/' then some '/'
               else if e = 'b' then some (Char.ofNat 8)
               else if e = 'f' then some (Char.ofNat 12)
               else if e = 'n' then some '\n'
               else if e = 'r' then some '\r'
               else if e = 't' then some '\t'
               else none) with
            | some ch =>
              match strChars fuel cs2 with
              | some (s, rest) => some (ch :: s, rest)
              | none => none
            | none => none
      else if c.toNat < 32 then none
      else
        match strChars fuel cs1 with
        | some (s, rest) => some (c :: s, rest)
        | none => none

/-- A JSON string literal. -/
def parseJString (cs : List Char) : Option (String × List Char) :=
  match cs with
  | c :: cs1 =>
    if c = '"' then (strChars (cs1.length + 1) cs1).map (fun p => (String.mk p.1, p.2))
    else none
  | [] => none

/-- A run of decimal digits: accumulated value, digit count, rest. -/
def jsonDigitsGo (v cnt : ℕ) : List Char → ℕ × ℕ × List Char
  | c :: cs =>
    if c.isDigit then jsonDigitsGo (v * 10 + (c.toNat - 48)) (cnt + 1) cs
    else (v, cnt, c :: cs)
  | [] => (v, cnt, [])

/-- `10 ^ e` for an integer exponent, as an exact rational. -/
def pow10 (e : ℤ) : ℚ :=
  if 0 ≤ e then ((10 : ℚ) ^ e.toNat) else 1 / ((10 : ℚ) ^ (-e).toNat)

/-- The exponent of a JSON number: consumed only when `[+-]?[0-9]+` follows,
otherwise the number token ends before it (maximal munch). -/
def jsonExp (rest fallback : List Char) : ℤ × List Char :=
  match rest with
  | '+' :: d :: r =>
    if d.isDigit then
      let p := jsonDigitsGo (d.toNat - 48) 1 r
      ((p.1 : ℤ), p.2.2)
    else (0, fallback)
  | '-' :: d :: r =>
    if d.isDigit then
      let p := jsonDigitsGo (d.toNat - 48) 1 r
      (-(p.1 : ℤ), p.2.2)
    else (0, fallback)
  | d :: r =>
    if d.isDigit then
      let p := jsonDigitsGo (d.toNat - 48) 1 r
      ((p.1 : ℤ), p.2.2)
    else (0, fallback)
  | [] => (0, fallback)

/-- The strict JSON number token
`-?(0|[1-9][0-9]*)(\.[0-9]+)?([eE][+-]?[0-9]+)?`, maximal munch, exact
value.  A leading zero ends the integer part at once, so `00.5` leaves `0.5`
unconsumed and the document fails upstream, as `json.loads` rejects it. -/
def parseJsonNumber (cs : List Char) : Option (ℚ × List Char) :=
  let (neg, cs1) := match cs with
    | '-' :: t => ((true : Bool), t)
    | _ => ((false : Bool), cs)
  let ipart : Option (ℕ × List Char) := match cs1 with
    | '0' :: rest => some (0, rest)
    | c :: rest =>
      if c.isDigit then
        let p := jsonDigitsGo (c.toNat - 48) 1 rest
        some (p.1, p.2.2)
      else none
    | [] => none
  match ipart with
  | none => none
  | some (iv, cs2) =>
    let fpart : ℕ × ℕ × List Char := match cs2 with
      | '.' :: d :: rest =>
        if d.isDigit then jsonDigitsGo (d.toNat - 48) 1 rest else (0, 0, cs2)
      | _ => (0, 0, cs2)
    let (ev, cs4) : ℤ × List Char := match fpart.2.2 with
      | 'e' :: rest => jsonExp rest fpart.2.2
      | 'E' :: rest => jsonExp rest fpart.2.2
      | _ => (0, fpart.2.2)
    let mag : ℚ := ((iv : ℚ) + (fpart.1 : ℚ) / ((10 : ℚ) ^ fpart.2.1)) * pow10 ev
    some (if neg then -mag else mag, cs4)

/-- Literal token helper. -/
def expectLit (lit : List Char) (cs : List Char) : Option (List Char) :=
  if lit.isPrefixOf cs then some (cs.drop lit.length) else none

mutual

/-- A JSON value.  The fuel only bounds recursion: every nested call follows
the consumption of input, so a fuel of a few multiples of the input length is
never exhausted. -/
def parseValue (fuel : ℕ) (cs : List Char) : Option (JsonVal × List Char) :=
  match fuel with
  | 0 => none
  | fuel + 1 =>
    match skipWs cs with
    | [] => none
    | c :: cs1 =>
      if c = '"' then
        match parseJString (c :: cs1) with
        | some (s, rest) => some (.str s, rest)
        | none => none
      else if c = '\x7b' then
        match skipWs cs1 with
        | '\x7d' :: cs2 => some (.obj [], cs2)
        | cs1' => (parseMembers fuel cs1' []).map (fun p => (.obj p.1, p.2))
      else if c = '[' then
        match skipWs cs1 with
        | ']' :: cs2 => some (.arr [], cs2)
        | cs1' => (parseElements fuel cs1' []).map (fun p => (.arr p.1, p.2))
      else if c = 't' then
        (expectLit "true".data (c :: cs1)).map (fun r => (.bool true, r))
      else if c = 'f' then
        (expectLit "false".data (c :: cs1)).map (fun r => (.bool false, r))
      else if c = 'n' then
        (expectLit "null".data (c :: cs1)).map (fun r => (.null, r))
      else if c = 'N' then
        (expectLit "NaN".data (c :: cs1)).map (fun r => (.nan, r))
      else if c = 'I' then
        (expectLit "Infinity".data (c :: cs1)).map (fun r => (.inf, r))
      else if c = '-' ∧ cs1.head? = some 'I' then
        (expectLit "Infinity".data cs1).map (fun r => (.ninf, r))
      else
        match parseJsonNumber (c :: cs1) with
        | some (q, rest) => some (.num q, rest)
        | none => none

/-- The members of a JSON object after its `\x7b`, consuming the closing
`\x7d`.  Duplicate keys behave as in the Python dict being built. -/
def parseMembers (fuel : ℕ) (cs : List Char) (acc : List (String × JsonVal)) :
    Option (List (String × JsonVal) × List Char) :=
  match fuel with
  | 0 => none
  | fuel + 1 =>
    match parseJString (skipWs cs) with
    | none => none
    | some (k, cs1) =>
      match skipWs cs1 with
      | ':' :: cs2 =>
        match parseValue fuel cs2 with
        | none => none
        | some (v, cs3) =>
          match skipWs cs3 with
          | ',' :: cs4 => parseMembers fuel cs4 (insertUpdateJson k v acc)
          | '\x7d' :: cs4 => some (insertUpdateJson k v acc, cs4)
          | _ => none
      | _ => none

/-- The elements of a JSON array after its `[`, consuming the closing `]`. -/
def parseElements (fuel : ℕ) (cs : List Char) (acc : List JsonVal) :
    Option (List JsonVal × List Char) :=
  match fuel with
  | 0 => none
  | fuel + 1 =>
    match parseValue fuel cs with
    | none => none
    | some (v, cs1) =>
      match skipWs cs1 with
      | ',' :: cs2 => parseElements fuel cs2 (acc ++ [v])
      | ']' :: cs2 => some (acc ++ [v], cs2)
      | _ => none

end

/-- `json.loads` on the regex match, which always starts at a `\x7b`: the
parsed object, provided the whole input is one JSON document (trailing
whitespace aside). -/
def json_loads_obj (cs : List Char) : Option (List (String × JsonVal)) :=
  match parseValue (8 * (cs.length + 1)) cs with
  | some (JsonVal.obj members, rest) => if (skipWs rest).isEmpty then some members else none
  | _ => none

/-- The ASCII whitespace `float(str)` strips. -/
def isPySpace (c : Char) : Bool :=
  c = ' ' ∨ c = '\t' ∨ c = '\n' ∨ c = '\r' ∨ c.toNat = 11 ∨ c.toNat = 12

/-- A digit run with the underscore separators Python number literals allow:
an underscore must sit between two digits.  Returns value, digit count,
rest; a trailing or doubled underscore is left unconsumed and fails the
full-match check of the caller. -/
def uDigitsGo (v cnt : ℕ) : List Char → ℕ × ℕ × List Char
  | c :: cs =>
    if c.isDigit then uDigitsGo (v * 10 + (c.toNat - 48)) (cnt + 1) cs
    else if c = '_' then
      match cs with
      | d :: rest =>
        if d.isDigit then uDigitsGo (v * 10 + (d.toNat - 48)) (cnt + 1) rest
        else (v, cnt, c :: d :: rest)
      | [] => (v, cnt, [c])
    else (v, cnt, c :: cs)
  | [] => (v, cnt, [])

/-- A digit run that must start with a digit. -/
def uDigits (cs : List Char) : Option (ℕ × ℕ × List Char) :=
  match cs with
  | c :: rest => if c.isDigit then some (uDigitsGo (c.toNat - 48) 1 rest) else none
  | [] => none

/-- End of Python's float grammar: nothing, or an exponent followed by
nothing (the input is already lower-cased). -/
def pyFloatFinish (neg : Bool) (iv fv fc : ℕ) : List Char → Option PyFloatVal
  | [] =>
    let mag : ℚ := (iv : ℚ) + (fv : ℚ) / ((10 : ℚ) ^ fc)
    some (.fin (if neg then -mag else mag))
  | 'e' :: r =>
    let (eneg, r1) := match r with
      | '-' :: t => ((true : Bool), t)
      | '+' :: t => ((false : Bool), t)
      | t => ((false : Bool), t)
    match uDigits r1 with
    | some (ev, _, rest) =>
      if rest.isEmpty then
        let e : ℤ := if eneg then -(ev : ℤ) else (ev : ℤ)
        let mag : ℚ := ((iv : ℚ) + (fv : ℚ) / ((10 : ℚ) ^ fc)) * pow10 e
        some (.fin (if neg then -mag else mag))
      else none
    | none => none
  | _ => none

/-- `float(s)` on a string: optional whitespace and sign, then
`inf`/`infinity`/`nan` (case-insensitive) or a decimal literal
(`digits [. digits?] | . digits`, optional exponent, underscore
separators). -/
def pyFloatOfString (s : String) : Option PyFloatVal :=
  let trimmed := ((s.data.dropWhile isPySpace).reverse.dropWhile isPySpace).reverse
  let lower := trimmed.map Char.toLower
  let (neg, cs1) := match lower with
    | '-' :: t => ((true : Bool), t)
    | '+' :: t => ((false : Bool), t)
    | t => ((false : Bool), t)
  if cs1 = "infinity".data ∨ cs1 = "inf".data then some (if neg then .ninf else .pinf)
  else if cs1 = "nan".data then some .nan
  else
    match uDigits cs1 with
    | some (iv, _, rest) =>
      match rest with
      | '.' :: d :: r2 =>
        if d.isDigit then
          let p := uDigitsGo (d.toNat - 48) 1 r2
          pyFloatFinish neg iv p.1 p.2.1 p.2.2
        else pyFloatFinish neg iv 0 0 (d :: r2)
      | '.' :: [] => pyFloatFinish neg iv 0 0 []
      | _ => pyFloatFinish neg iv 0 0 rest
    | none =>
      match cs1 with
      | '.' :: r =>
        match uDigits r with
        | some (fv, fc, rest2) => pyFloatFinish neg 0 fv fc rest2
        | none => none
      | _ => none

/-- `float(x)` on a parsed JSON value: numbers and bools convert (`bool` is
an `int` subclass, so `float(True) = 1.0`), strings go through the float
grammar, and `None`, lists and dicts raise the `TypeError` the caller turns
into the empty dict. -/
def pyFloat : JsonVal → Option PyFloatVal
  | JsonVal.num q => some (.fin q)
  | JsonVal.inf => some .pinf
  | JsonVal.ninf => some .ninf
  | JsonVal.nan => some .nan
  | JsonVal.bool b => some (.fin (if b then 1 else 0))
  | JsonVal.str s => pyFloatOfString s
  | JsonVal.null => none
  | JsonVal.arr _ => none
  | JsonVal.obj _ => none

/-- `max(0, min(1, v))` on a Python float: finite values clamp as rationals;
`min(1, inf) = 1` and `min(1, nan) = 1` (`nan < 1` is false, so `min` keeps
its first argument), then `max(0, 1) = 1`; `max(0, -inf) = 0`. -/
def pyClamp01 : PyFloatVal → ℚ
  | .fin q => clamp01 q
  | .pinf => 1
  | .nan => 1
  | .ninf => 0

/-- The normalization loop of `_parse_recommendations`: the value of every
in-catalog key is replaced by its clamped `float(...)`; a conversion failure
aborts the whole call (the exception reaches the outer `except`), and
off-catalog entries pass through untouched. -/
def normalize_scores : List (String × JsonVal) → Option (List (String × JsonVal))
  | [] => some []
  | kv :: rest =>
    if catalogNames.contains kv.1 then
      match pyFloat kv.2 with
      | none => none
      | some f =>
        match normalize_scores rest with
        | none => none
        | some r => some ((kv.1, JsonVal.num (pyClamp01 f)) :: r)
    else
      match normalize_scores rest with
      | none => none
      | some r => some (kv :: r)

/-- `re.search(r'\x7b.*\x7d', text, re.DOTALL)`: the span from the first
`\x7b` to the last `\x7d` of the text, when the latter comes after the
former; `None` otherwise. -/
def extractGreedy (cs : List Char) : Option (List Char) :=
  match cs.findIdx? (fun c => c = '\x7b') with
  | none => none
  | some i =>
    match cs.reverse.findIdx? (fun c => c = '\x7d') with
    | none => none
    | some rj =>
      let j := cs.length - 1 - rj
      if i < j then some ((cs.drop i).take (j - i + 1)) else none

/-- `_parse_recommendations`: greedy brace span, `json.loads`, then the
clamping loop; every failure yields the empty dict. -/
def parse_recommendations (response_text : String) : List (String × JsonVal) :=
  match extractGreedy response_text.data with
  | none => []
  | some json_match =>
    match json_loads_obj json_match with
    | none => []
    | some recommendations =>
      match normalize_scores recommendations with
      | none => []
      | some updated => updated


/-- Python-number scores as rationals.  The threshold comparison in
`get_recommendations` accepts ints, floats and bools (an `int` subclass:
`True >= 0.4` compares as `1 >= 0.4`) and raises a `TypeError` on any other
score, which crashes the batch — an execution with no return value, outside
this embedding; a `±inf`/`nan` score, possible only under an off-catalog key,
leaves the rational embedding.  Both cases are `none` here. -/
def float_comparable_scores : List (String × JsonVal) → Option (List (String × ℚ))
  | [] => some []
  | (k, v) :: rest =>
    match (match v with
           | JsonVal.num q => some q
           | JsonVal.bool b => some (if b then (1 : ℚ) else 0)
           | _ => none) with
    | none => none
    | some q =>
      match float_comparable_scores rest with
      | none => none
      | some r => some ((k, q) :: r)

/-! ## Recommendation selection and API (`BankingRecommendationAPI`) -/

/-- Outcome of the external LLM call in `classify_client`: either the call (or
its configuration) raised — the `except` path — or it returned a text blob. -/
inductive LLMOutcome where
  | unavailable
  | response (text : String)

/-- `classify_client`: parse the LLM response when one arrives, otherwise fall
back to the rule-based classification; the caller never sees an exception
from this call.  The response path carries the parsed dict's rational scores
(`float_comparable_scores`); the two cases that function excludes are either
a crash of the later comparison or values outside the rational embedding, and
no claim quantifies over such responses — they take the empty-dict default. -/
def classify_client (outcome : LLMOutcome) (client_profile : ClientProfile) :
    List (String × ℚ) :=
  match outcome with
  | .unavailable => rule_based_classification client_profile
  | .response text => (float_comparable_scores (parse_recommendations text)).getD []

/-- The `product_type` computation of `get_recommendations` (lines 547–567):
filter by threshold, stable-sort descending, take the first key; if the
filtered dict is empty, `max(recommendations, key=recommendations.get)` over
the unfiltered dict, or `""` when that too is empty. -/
def select_product_type (recommendations : List (String × ℚ)) (threshold : ℚ) : String :=
  let filtered_recommendations := recommendations.filter (fun kv => threshold ≤ kv.2)
  let sorted_recommendations := sortDesc filtered_recommendations
  match sorted_recommendations.head? with
  | some kv => kv.1
  | none => if recommendations.isEmpty then "" else pyMaxByVal recommendations

/-- A value of the JSON record `get_recommendations` returns (and, with
`client_code` prepended, of the records `main` writes to
`product_classification.json`). -/
inductive FieldVal where
  | s (v : String)
  | m (v : List (String × ℤ))
  | i (v : ℤ)
  | strs (v : List String)
deriving DecidableEq

/-- `get_recommendations`: build the profile (propagating its error dict),
classify, and assemble the four-field result dict. -/
def get_recommendations (t : Tables) (outcome : LLMOutcome) (client_code : ℕ)
    (threshold : ℚ) : Except String (List (String × FieldVal)) :=
  match get_comprehensive_client_profile t client_code with
  | .error e => .error e
  | .ok profile =>
    let recommendations := classify_client outcome profile
    let product_type := select_product_type recommendations threshold
    let top_5_category_spending :=
      ((sortDesc profile.category_spending).take 5).map (fun kv => (kv.1, pyRound kv.2))
    let top_5_type_spending :=
      ((sortDesc profile.type_spending).take 5).map (fun kv => (kv.1, pyRound kv.2))
    let avg_monthly_balance := match profile.avg_monthly_balance_KZT with
      | some v => pyRound v
      | none => 0
    .ok [("product_type", FieldVal.s product_type),
         ("top_5_category_spending", FieldVal.m top_5_category_spending),
         ("top_5_type_spending", FieldVal.m top_5_type_spending),
         ("avg_monthly_balance", FieldVal.i avg_monthly_balance)]

/-- The batch loop of `main`: one `get_recommendations` call per client code;
an error result is logged and skipped, a success is appended as
`{"client_code": code, **res}`. -/
def run_batch (t : Tables) (outcome : LLMOutcome) (codes : List ℕ) (threshold : ℚ) :
    List (List (String × FieldVal)) :=
  codes.foldl (fun results code =>
    match get_recommendations t outcome code threshold with
    | .error _ => results
    | .ok res => results ++ [("client_code", FieldVal.i (code : ℤ)) :: res]) []

/-- `client_data.get('currencies', ['KZT'])` as performed by
`extract_product_specific_data` on a record of the classification JSON. -/
def recordCurrencies (client_data : List (String × FieldVal)) : List String :=
  match client_data.find? (fun kv => kv.1 = "currencies") with
  | some kv =>
    match kv.2 with
    | FieldVal.strs l => l
    | _ => []
  | none => ["KZT"]

/-! ## Notification-side data extraction (`azure_notification_generator.py`) -/

/-- The three-entry dict inside `normalize_product_name`. -/
def product_mapping : List (String × String) :=
  [("Депозит Мультивалютный", "Депозит мультивалютный"),
   ("Депозит Сберегательный", "Депозит сберегательный"),
   ("Депозит Накопительный", "Депозит накопительный")]

/-- `normalize_product_name`: `product_mapping.get(product_type, product_type)`. -/
def normalize_product_name (product_type : String) : String :=
  match product_mapping.find? (fun kv => kv.1 = product_type) with
  | some kv => kv.2
  | none => product_type

/-- A record of `product_classification.json` as `extract_product_specific_data`
reads it: the required fields plus the optional `currencies` list
(`none` models an absent key, read through `.get('currencies', ['KZT'])`). -/
structure ClientData where
  client_code : ℤ
  name : String
  status : String
  age : ℤ
  city : String
  avg_monthly_balance : ℤ
  currencies : Option (List String)
  top_5_category_spending : List (String × ℤ)
  top_5_type_spending : List (String × ℤ)
deriving DecidableEq

/-- A value of the product-data dict the extractor returns. -/
inductive ExtVal where
  | i (v : ℤ)
  | s (v : String)
  | b (v : Bool)
  | strs (v : List String)
deriving DecidableEq

/-- Lookup in a product-data dict. -/
def extLookup (k : String) (l : List (String × ExtVal)) : Option ExtVal :=
  (l.find? (fun kv => kv.1 = k)).map (fun kv => kv.2)

/-- The `base_data` dict shared by every branch of the extractor. -/
def base_data (client_data : ClientData) : List (String × ExtVal) :=
  [("client_code", ExtVal.i client_data.client_code),
   ("name", ExtVal.s client_data.name),
   ("status", ExtVal.s client_data.status),
   ("age", ExtVal.i client_data.age),
   ("city", ExtVal.s client_data.city),
   ("avg_monthly_balance_KZT", ExtVal.i client_data.avg_monthly_balance),
   ("currencies", ExtVal.strs (client_data.currencies.getD ["KZT"]))]

/-- The `month_names` localization dict with its `'августе'` default. -/
def month_in_russian (current_month : String) : String :=
  let month_names : List (String × String) :=
    [("january", "январе"), ("february", "феврале"), ("march", "марте"),
     ("april", "апреле"), ("may", "мае"), ("june", "июне"),
     ("july", "июле"), ("august", "августе"), ("september", "сентябре"),
     ("october", "октябре"), ("november", "ноябре"), ("december", "декабре")]
  match month_names.find? (fun kv => kv.1 = current_month) with
  | some kv => kv.2
  | none => "августе"

/-- Stable descending sort by value for the integer-valued top-5 dicts
(`sorted(category_spending.items(), key=lambda x: x[1], reverse=True)`). -/
def insertDescZ (x : String × ℤ) : List (String × ℤ) → List (String × ℤ)
  | [] => [x]
  | y :: ys => if x.2 < y.2 then y :: insertDescZ x ys else x :: y :: ys

/-- See `insertDescZ`. -/
def sortDescZ : List (String × ℤ) → List (String × ℤ)
  | [] => []
  | a :: rest => insertDescZ a (sortDescZ rest)

/-- `extract_product_specific_data`: ten branches keyed on the normalized
product name, each `base_data` plus the product's derived fields; any other
product name returns `base_data` alone.  `current_month` stands for the
`datetime.now().strftime('%B').lower()` environment reading. -/
def extract_product_specific_data (client_data : ClientData) (product_type : String)
    (current_month : String) : List (String × ExtVal) :=
  let normalized_product_type := normalize_product_name product_type
  let month := month_in_russian current_month
  let category_spending := client_data.top_5_category_spending
  let type_spending := client_data.top_5_type_spending
  if normalized_product_type = "Карта для путешествий" then
    base_data client_data ++
    [("taxi_rides_count", ExtVal.i (pyInt ((lookupD category_spending "Такси" 0 : ℚ) / 2000))),
     ("taxi_spent_amount", ExtVal.i (lookupD category_spending "Такси" 0)),
     ("travel_spent_amount", ExtVal.i (lookupD category_spending "Путешествия" 0)),
     ("hotels_spent_amount", ExtVal.i (lookupD category_spending "Отели" 0)),
     ("month", ExtVal.s month)]
  else if normalized_product_type = "Премиальная карта" then
    base_data client_data ++
    [("restaurants_spent", ExtVal.i (lookupD category_spending "Кафе и рестораны" 0)),
     ("cosmetics_spent", ExtVal.i (lookupD category_spending "Косметика и Парфюмерия" 0)),
     ("jewelry_spent", ExtVal.i (lookupD category_spending "Ювелирные украшения" 0)),
     ("atm_withdrawals_count", ExtVal.i (pyInt ((lookupD type_spending "atm_withdrawal" 0 : ℚ) / 50000))),
     ("transfers_count", ExtVal.i (pyInt ((lookupD type_spending "p2p_out" 0 : ℚ) / 100000)))]
  else if normalized_product_type = "Кредитная карта" then
    let top_categories := ((sortDescZ category_spending).map (fun kv => kv.1)).take 3
    base_data client_data ++
    [("top_category_1", ExtVal.s (top_categories.getD 0 "Продукты питания")),
     ("top_category_2", ExtVal.s (top_categories.getD 1 "Кафе и рестораны")),
     ("top_category_3", ExtVal.s (top_categories.getD 2 "Такси")),
     ("online_services_spent", ExtVal.i
       (lookupD category_spending "Едим дома" 0 + lookupD category_spending "Смотрим дома" 0 +
        lookupD category_spending "Играем дома" 0)),
     ("installment_payments", ExtVal.b (type_spending.any (fun kv => kv.1 = "installment_payment_out"))),
     ("cc_repayments", ExtVal.b (type_spending.any (fun kv => kv.1 = "cc_repayment_out")))]
  else if normalized_product_type = "Обмен валют" then
    let client_currencies := client_data.currencies.getD ["KZT"]
    let foreign_currencies := client_currencies.filter (fun curr => curr ≠ "KZT")
    let main_foreign_currency := match foreign_currencies with
      | [] => "иностранной валюте"
      | c :: _ => c
    base_data client_data ++
    [("fx_buy_count", ExtVal.i (pyInt ((lookupD type_spending "fx_buy" 0 : ℚ) / 1000000))),
     ("fx_sell_count", ExtVal.i (pyInt ((lookupD type_spending "fx_sell" 0 : ℚ) / 1000000))),
     ("main_foreign_currency", ExtVal.s main_foreign_currency)]
  else if normalized_product_type = "Кредит наличными" then
    let monthly_inflow := lookupD type_spending "salary_in" 0
    let monthly_outflow := lookupD type_spending "card_out" 0
    base_data client_data ++
    [("monthly_inflow", ExtVal.i monthly_inflow),
     ("monthly_outflow", ExtVal.i monthly_outflow),
     ("loan_payments_count", ExtVal.i (pyInt ((lookupD type_spending "loan_payment_out" 0 : ℚ) / 100000))),
     ("low_balance_days", ExtVal.i (if (monthly_inflow : ℚ) * 1.2 < (monthly_outflow : ℚ) then 15 else 5)),
     ("cash_need_indicators", ExtVal.b ((monthly_inflow : ℚ) * 1.1 < (monthly_outflow : ℚ)))]
  else if normalized_product_type = "Депозит мультивалютный" then
    base_data client_data ++
    [("free_balance", ExtVal.i (max 0 (client_data.avg_monthly_balance - 50000))),
     ("fx_activity_score", ExtVal.i (min 10 (pyInt ((lookupD type_spending "fx_buy" 0 : ℚ) / 500000)))),
     ("foreign_spending", ExtVal.i
       (lookupD category_spending "Путешествия" 0 + lookupD category_spending "Отели" 0)),
     ("deposit_fx_topup_count", ExtVal.i (pyInt ((lookupD type_spending "deposit_fx_topup_out" 0 : ℚ) / 200000))),
     ("deposit_fx_withdraw_count", ExtVal.i (pyInt ((lookupD type_spending "deposit_fx_withdraw_in" 0 : ℚ) / 200000)))]
  else if normalized_product_type = "Депозит сберегательный" then
    base_data client_data ++
    [("stable_balance", ExtVal.i client_data.avg_monthly_balance),
     ("spending_volatility", ExtVal.i (if 500000 < client_data.avg_monthly_balance then 3 else 7)),
     ("deposit_topup_count", ExtVal.i (pyInt ((lookupD type_spending "deposit_topup_out" 0 : ℚ) / 200000))),
     ("deposit_withdraw_count", ExtVal.i 0),
     ("balance_stability_score", ExtVal.i (if 500000 < client_data.avg_monthly_balance then 9 else 5))]
  else if normalized_product_type = "Депозит накопительный" then
    base_data client_data ++
    [("regular_balance", ExtVal.i client_data.avg_monthly_balance),
     ("periodic_topups", ExtVal.b (0 < lookupD type_spending "deposit_topup_out" 0)),
     ("topup_frequency", ExtVal.i (pyInt ((lookupD type_spending "deposit_topup_out" 0 : ℚ) / 100000))),
     ("savings_behavior_score", ExtVal.i (if 500000 < lookupD type_spending "deposit_topup_out" 0 then 8 else 4)),
     ("small_regular_amounts", ExtVal.b (lookupD type_spending "deposit_topup_out" 0 < 500000))]
  else if normalized_product_type = "Инвестиции" then
    base_data client_data ++
    [("available_funds", ExtVal.i (max 0 (client_data.avg_monthly_balance - 100000))),
     ("invest_in_count", ExtVal.i (pyInt ((lookupD type_spending "invest_in" 0 : ℚ) / 200000))),
     ("invest_out_count", ExtVal.i (pyInt ((lookupD type_spending "invest_out" 0 : ℚ) / 200000))),
     ("investment_interest_score", ExtVal.i (if 0 < lookupD type_spending "invest_in" 0 then 8 else 3)),
     ("risk_tolerance", ExtVal.i (if client_data.age < 35 then 7 else 5))]
  else if normalized_product_type = "Золотые слитки" then
    base_data client_data ++
    [("high_liquidity", ExtVal.b (1000000 < client_data.avg_monthly_balance)),
     ("gold_buy_count", ExtVal.i (pyInt ((lookupD type_spending "gold_buy_out" 0 : ℚ) / 500000))),
     ("gold_sell_count", ExtVal.i (pyInt ((lookupD type_spending "gold_sell_in" 0 : ℚ) / 500000))),
     ("jewelry_spent", ExtVal.i (lookupD category_spending "Ювелирные украшения" 0)),
     ("value_preservation_interest", ExtVal.i (if 0 < lookupD type_spending "gold_buy_out" 0 then 8 else 5))]
  else
    base_data client_data

/-! ## Concrete scenario fixtures -/

/-- Scenario A tables: one client with `avg_monthly_balance = 7,000,000` and no
transaction or transfer rows. -/
def tablesA : Tables :=
  { clients := [⟨1, "Анна", 40, "premium", 7000000, "Алматы"⟩],
    transactions := [],
    transfers := [] }

/-- The profile the builder produces for scenario A. -/
def profileA : ClientProfile :=
  { client_info := ⟨1, "Анна", 40, "premium", 7000000, "Алматы"⟩,
    category_spending := [],
    type_spending := [],
    currencies_used := [],
    avg_monthly_balance_KZT := some 7000000,
    transaction_frequency := ⟨0, 0, none⟩,
    spending_patterns := none }

/-- Scenario B tables, parameterized by the client's balance: the only
transaction rows are `Такси: 150000` and `Путешествия: 0` (the code's spelling
of the spec's `Taxi`/`Travel` category keys). -/
def tablesB (b : ℚ) : Tables :=
  { clients := [⟨1, "Борис", 30, "salary", b, "Астана"⟩],
    transactions := [⟨1, 0, "Такси", "KZT", 150000⟩, ⟨1, 0, "Путешествия", "KZT", 0⟩],
    transfers := [] }

/-- The profile the builder produces for scenario B. -/
def profileB (b : ℚ) : ClientProfile :=
  { client_info := ⟨1, "Борис", 30, "salary", b, "Астана"⟩,
    category_spending := [("Путешествия", 0), ("Такси", 150000)],
    type_spending := [],
    currencies_used := ["KZT"],
    avg_monthly_balance_KZT := some b,
    transaction_frequency := ⟨2, 0, some 2⟩,
    spending_patterns := some ⟨150000, 75000, 150000, 0, some "Путешествия", 2⟩ }

/-- The classification-JSON record of the scenario B client, as the extractor
receives it. -/
def clientDataB : ClientData :=
  { client_code := 1,
    name := "Борис",
    status := "salary",
    age := 30,
    city := "Астана",
    avg_monthly_balance := 600000,
    currencies := none,
    top_5_category_spending := [("Такси", 150000), ("Путешествия", 0)],
    top_5_type_spending := [] }

/-- The builder's output on the scenario A tables. -/
theorem buildA : get_comprehensive_client_profile tablesA 1 = .ok profileA := rfl

/-- The builder's output on the scenario B tables, for every balance. -/
theorem buildB (b : ℚ) : get_comprehensive_client_profile (tablesB b) 1 = .ok (profileB b) := by
  have hf : calculate_transaction_frequency (tablesB b) 1 = ⟨2, 0, some 2⟩ := by
    have ht : (tablesB b).transactions =
        [⟨1, 0, "Такси", "KZT", 150000⟩, ⟨1, 0, "Путешествия", "KZT", 0⟩] := rfl
    have hr : (tablesB b).transfers = [] := rfl
    unfold calculate_transaction_frequency
    rw [ht, hr]
    decide
  unfold get_comprehensive_client_profile
  rw [hf]
  rfl

/-! ## Lemmas about the selector -/

/-- The head of the stable descending sort of a non-empty list is a member
attaining the maximal score. -/
theorem sortDesc_head_max (l : List (String × ℚ)) (hne : l ≠ []) :
    ∃ p, (sortDesc l).head? = some p ∧ p ∈ l ∧ ∀ z ∈ l, z.2 ≤ p.2 := by
  induction l with
  | nil => exact absurd rfl hne
  | cons a rest ih =>
    cases rest with
    | nil =>
      refine ⟨a, rfl, List.mem_singleton.mpr rfl, ?_⟩
      intro z hz
      rw [List.mem_singleton.mp hz]
    | cons b t =>
      obtain ⟨p, hh, hmem, hmax⟩ := ih (by simp)
      cases hs : sortDesc (b :: t) with
      | nil => rw [hs] at hh; simp at hh
      | cons q qs =>
        rw [hs] at hh
        have hqp : q = p := by simpa using hh
        subst hqp
        show ∃ p', (insertDesc a (sortDesc (b :: t))).head? = some p' ∧ _
        rw [hs]
        by_cases hlt : a.2 < q.2
        · refine ⟨q, ?_, List.mem_cons_of_mem a hmem, ?_⟩
          · simp [insertDesc, hlt]
          · intro z hz
            rcases List.mem_cons.mp hz with h | h
            · exact h ▸ le_of_lt hlt
            · exact hmax z h
        · refine ⟨a, ?_, List.mem_cons_self a _, ?_⟩
          · simp [insertDesc, hlt]
          · intro z hz
            rcases List.mem_cons.mp hz with h | h
            · exact h ▸ le_refl _
            · exact le_trans (hmax z h) (not_lt.mp hlt)

/-- The fold inside `pyMaxByVal` returns either its seed or a list member, its
value dominating the seed and every member. -/
theorem pyMaxFold_spec (rest : List (String × ℚ)) (b : String × ℚ) :
    (rest.foldl (fun best y => if best.2 < y.2 then y else best) b = b ∨
      rest.foldl (fun best y => if best.2 < y.2 then y else best) b ∈ rest) ∧
    b.2 ≤ (rest.foldl (fun best y => if best.2 < y.2 then y else best) b).2 ∧
    ∀ z ∈ rest, z.2 ≤ (rest.foldl (fun best y => if best.2 < y.2 then y else best) b).2 := by
  induction rest generalizing b with
  | nil => exact ⟨Or.inl rfl, le_refl _, by intro z hz; simp at hz⟩
  | cons y ys ih =>
    simp only [List.foldl_cons]
    by_cases hlt : b.2 < y.2
    · rw [if_pos hlt]
      obtain ⟨hm, hb, hall⟩ := ih y
      refine ⟨?_, le_trans (le_of_lt hlt) hb, ?_⟩
      · rcases hm with h | h
        · exact Or.inr (by rw [h]; exact List.mem_cons_self y ys)
        · exact Or.inr (List.mem_cons_of_mem y h)
      · intro z hz
        rcases List.mem_cons.mp hz with h | h
        · exact h ▸ hb
        · exact hall z h
    · rw [if_neg hlt]
      obtain ⟨hm, hb, hall⟩ := ih b
      refine ⟨?_, hb, ?_⟩
      · rcases hm with h | h
        · exact Or.inl h
        · exact Or.inr (List.mem_cons_of_mem y h)
      · intro z hz
        rcases List.mem_cons.mp hz with h | h
        · exact h ▸ le_trans (not_lt.mp hlt) hb
        · exact hall z h

/-- `pyMaxByVal` of a non-empty list is a key of the list whose score is
maximal. -/
theorem pyMaxByVal_spec (l : List (String × ℚ)) (hne : l ≠ []) :
    ∃ s, (pyMaxByVal l, s) ∈ l ∧ ∀ z ∈ l, z.2 ≤ s := by
  cases l with
  | nil => exact absurd rfl hne
  | cons kv rest =>
    obtain ⟨hm, hb, hall⟩ := pyMaxFold_spec rest kv
    refine ⟨(rest.foldl (fun best y => if best.2 < y.2 then y else best) kv).2, ?_, ?_⟩
    · show (pyMaxByVal (kv :: rest), _) ∈ kv :: rest
      simp only [pyMaxByVal]
      rcases hm with h | h
      · rw [h, Prod.mk.eta]
        exact List.mem_cons_self kv rest
      · rw [Prod.mk.eta]
        exact List.mem_cons_of_mem kv h
    · intro z hz
      rcases List.mem_cons.mp hz with h | h
      · exact h ▸ hb
      · exact hall z h

/-- C1: `get_recommendations` filters the recommendation dict to entries with
score ≥ threshold; when the filtered dict is non-empty the chosen product is an
entry of it of maximal score; when it is empty but the dict is not, the chosen
product is a global argmax ignoring the threshold; and on the empty dict the
chosen product is the empty string. -/
theorem selector_chooses_argmax (recommendations : List (String × ℚ)) (threshold : ℚ) :
    (recommendations.filter (fun kv => threshold ≤ kv.2) ≠ [] →
      ∃ s, (select_product_type recommendations threshold, s) ∈
            recommendations.filter (fun kv => threshold ≤ kv.2) ∧
          ∀ kv ∈ recommendations.filter (fun kv => threshold ≤ kv.2), kv.2 ≤ s) ∧
    (recommendations.filter (fun kv => threshold ≤ kv.2) = [] → recommendations ≠ [] →
      ∃ s, (select_product_type recommendations threshold, s) ∈ recommendations ∧
          ∀ kv ∈ recommendations, kv.2 ≤ s) ∧
    (recommendations = [] → select_product_type recommendations threshold = "") := by
  refine ⟨?_, ?_, ?_⟩
  · intro hne
    obtain ⟨p, hh, hmem, hmax⟩ := sortDesc_head_max _ hne
    refine ⟨p.2, ?_, hmax⟩
    have hsel : select_product_type recommendations threshold = p.1 := by
      simp only [select_product_type]
      rw [hh]
    rw [hsel, Prod.mk.eta]
    exact hmem
  · intro hfe hne
    have hsel : select_product_type recommendations threshold = pyMaxByVal recommendations := by
      simp only [select_product_type]
      rw [hfe]
      simp [sortDesc, List.isEmpty_eq_false.mpr hne]
    obtain ⟨s, hmem, hmax⟩ := pyMaxByVal_spec recommendations hne
    exact ⟨s, hsel ▸ hmem, hmax⟩
  · intro h
    subst h
    rfl

/-- Witness for `selector_chooses_argmax` at a concrete dict and threshold. -/
theorem selector_chooses_argmax_witness :
    ∃ s, (select_product_type [("Инвестиции", 0.7), ("Золотые слитки", 0.6)] 0.5, s) ∈
          [("Инвестиции", (0.7 : ℚ)), ("Золотые слитки", 0.6)].filter (fun kv => (0.5 : ℚ) ≤ kv.2) ∧
        ∀ kv ∈ [("Инвестиции", (0.7 : ℚ)), ("Золотые слитки", 0.6)].filter (fun kv => (0.5 : ℚ) ≤ kv.2),
          kv.2 ≤ s :=
  (selector_chooses_argmax [("Инвестиции", 0.7), ("Золотые слитки", 0.6)] 0.5).1 (by decide)

/-! ## Lemmas about the rule-based scorer -/

/-- An entry of `insertUpdate k v l` is the new pair or an entry of `l`. -/
theorem insertUpdate_mem {k : String} {v : ℚ} {l : List (String × ℚ)} {kv : String × ℚ}
    (h : kv ∈ insertUpdate k v l) : kv = (k, v) ∨ kv ∈ l := by
  unfold insertUpdate at h
  split at h
  · obtain ⟨x, hx, hef⟩ := List.mem_map.mp h
    by_cases hxk : x.1 = k
    · rw [if_pos hxk] at hef
      exact Or.inl hef.symm
    · rw [if_neg hxk] at hef
      exact Or.inr (hef ▸ hx)
  · rcases List.mem_append.mp h with h' | h'
    · exact Or.inr h'
    · exact Or.inl (List.mem_singleton.mp h')

/-- Entries contributed by the balance-band rule. -/
theorem highBalanceRule_mem {balance : ℚ} {r : List (String × ℚ)} {kv : String × ℚ}
    (h : kv ∈ highBalanceRule balance r) :
    kv = ("Депозит Сберегательный", 0.8) ∨ kv = ("Премиальная карта", 0.9) ∨
    kv = ("Депозит Накопительный", 0.75) ∨ kv = ("Премиальная карта", 0.7) ∨ kv ∈ r := by
  unfold highBalanceRule at h
  split at h
  · rcases insertUpdate_mem h with h' | h'
    · exact Or.inl h'
    · rcases insertUpdate_mem h' with h'' | h''
      · exact Or.inr (Or.inl h'')
      · exact Or.inr (Or.inr (Or.inr (Or.inr h'')))
  · split at h
    · rcases insertUpdate_mem h with h' | h'
      · exact Or.inr (Or.inr (Or.inl h'))
      · rcases insertUpdate_mem h' with h'' | h''
        · exact Or.inr (Or.inr (Or.inr (Or.inl h'')))
        · exact Or.inr (Or.inr (Or.inr (Or.inr h'')))
    · exact Or.inr (Or.inr (Or.inr (Or.inr h)))

/-- Entries contributed by the multi-currency rule. -/
theorem multiCurrencyRule_mem {currencies : List String} {r : List (String × ℚ)}
    {kv : String × ℚ} (h : kv ∈ multiCurrencyRule currencies r) :
    kv = ("Депозит Мультивалютный", 0.8) ∨ kv = ("Обмен валют", 0.85) ∨ kv ∈ r := by
  unfold multiCurrencyRule at h
  split at h
  · rcases insertUpdate_mem h with h' | h'
    · exact Or.inl h'
    · rcases insertUpdate_mem h' with h'' | h''
      · exact Or.inr (Or.inl h'')
      · exact Or.inr (Or.inr h'')
  · exact Or.inr (Or.inr h)

/-- Entries contributed by the travel-spending rule. -/
theorem travelRule_mem {categories : List (String × ℚ)} {r : List (String × ℚ)}
    {kv : String × ℚ} (h : kv ∈ travelRule categories r) :
    kv = ("Карта для путешествий", 0.85) ∨ kv ∈ r := by
  unfold travelRule at h
  split at h
  · rcases insertUpdate_mem h with h' | h'
    · exact Or.inl h'
    · exact Or.inr h'
  · exact Or.inr h

/-- The travel-spending rule is the identity when the substring test fails. -/
theorem travelRule_not_fired {categories : List (String × ℚ)} {r : List (String × ℚ)}
    (h : travelKeyTest categories = false) : travelRule categories r = r := by
  simp [travelRule, h]

/-- Entries contributed by the diversity rule. -/
theorem diversityRule_mem {patterns : Option SpendingPatterns} {r : List (String × ℚ)}
    {kv : String × ℚ} (h : kv ∈ diversityRule patterns r) :
    kv = ("Кредитная карта", 0.7) ∨ kv ∈ r := by
  unfold diversityRule at h
  split at h
  · rcases insertUpdate_mem h with h' | h'
    · exact Or.inl h'
    · exact Or.inr h'
  · exact Or.inr h

/-- Entries contributed by the low-balance-but-active rule. -/
theorem lowBalanceActiveRule_mem {balance : ℚ} {patterns : Option SpendingPatterns}
    {r : List (String × ℚ)} {kv : String × ℚ}
    (h : kv ∈ lowBalanceActiveRule balance patterns r) :
    kv = ("Кредитная карта", 0.75) ∨ kv = ("Кредит наличными", 0.6) ∨ kv ∈ r := by
  unfold lowBalanceActiveRule at h
  split at h
  · rcases insertUpdate_mem h with h' | h'
    · exact Or.inl h'
    · rcases insertUpdate_mem h' with h'' | h''
      · exact Or.inr (Or.inl h'')
      · exact Or.inr (Or.inr h'')
  · exact Or.inr (Or.inr h)

/-- Entries contributed by the investment-potential rule. -/
theorem investmentRule_mem {balance : ℚ} {r : List (String × ℚ)} {kv : String × ℚ}
    (h : kv ∈ investmentRule balance r) :
    kv = ("Золотые слитки", 0.6) ∨ kv = ("Инвестиции", 0.7) ∨ kv ∈ r := by
  unfold investmentRule at h
  split at h
  · rcases insertUpdate_mem h with h' | h'
    · exact Or.inl h'
    · rcases insertUpdate_mem h' with h'' | h''
      · exact Or.inr (Or.inl h'')
      · exact Or.inr (Or.inr h'')
  · exact Or.inr (Or.inr h)

/-- The score values the rule blocks can assign. -/
def ruleScores : List ℚ := [0.6, 0.7, 0.75, 0.8, 0.85, 0.9]

/-- C8: every entry of a rule-based recommendation dict has one of the 10
catalog product names as key and a score from the fixed finite set
`{0.6, 0.7, 0.75, 0.8, 0.85, 0.9} ⊆ [0, 1]`. -/
theorem rule_based_keys_and_scores (client_profile : ClientProfile) :
    ∀ kv ∈ rule_based_classification client_profile,
      kv.1 ∈ catalogNames ∧ kv.2 ∈ ruleScores ∧ 0 ≤ kv.2 ∧ kv.2 ≤ 1 := by
  intro kv h
  unfold rule_based_classification at h
  rcases investmentRule_mem h with h | h | h
  · subst h; refine ⟨by decide, by decide, by decide, by decide⟩
  · subst h; refine ⟨by decide, by decide, by decide, by decide⟩
  rcases lowBalanceActiveRule_mem h with h | h | h
  · subst h; refine ⟨by decide, by decide, by decide, by decide⟩
  · subst h; refine ⟨by decide, by decide, by decide, by decide⟩
  rcases diversityRule_mem h with h | h
  · subst h; refine ⟨by decide, by decide, by decide, by decide⟩
  rcases travelRule_mem h with h | h
  · subst h; refine ⟨by decide, by decide, by decide, by decide⟩
  rcases multiCurrencyRule_mem h with h | h | h
  · subst h; refine ⟨by decide, by decide, by decide, by decide⟩
  · subst h; refine ⟨by decide, by decide, by decide, by decide⟩
  rcases highBalanceRule_mem h with h | h | h | h | h
  · subst h; refine ⟨by decide, by decide, by decide, by decide⟩
  · subst h; refine ⟨by decide, by decide, by decide, by decide⟩
  · subst h; refine ⟨by decide, by decide, by decide, by decide⟩
  · subst h; refine ⟨by decide, by decide, by decide, by decide⟩
  simp at h

/-- Witness for `rule_based_keys_and_scores` on the scenario A profile and its
top entry. -/
theorem rule_based_keys_and_scores_witness :
    ("Премиальная карта" : String) ∈ catalogNames ∧ (0.9 : ℚ) ∈ ruleScores ∧
    (0 : ℚ) ≤ 0.9 ∧ (0.9 : ℚ) ≤ 1 :=
  rule_based_keys_and_scores profileA ("Премиальная карта", 0.9) (by decide)

/-- If the substring test on the category dict fails, no rule recommends the
travel card. -/
theorem rule_based_no_travel (client_profile : ClientProfile)
    (h : travelKeyTest client_profile.category_spending = false) :
    ∀ kv ∈ rule_based_classification client_profile, kv.1 ≠ "Карта для путешествий" := by
  intro kv hm
  simp only [rule_based_classification] at hm
  rw [travelRule_not_fired h] at hm
  rcases investmentRule_mem hm with h' | h' | hm
  · subst h'; decide
  · subst h'; decide
  rcases lowBalanceActiveRule_mem hm with h' | h' | hm
  · subst h'; decide
  · subst h'; decide
  rcases diversityRule_mem hm with h' | hm
  · subst h'; decide
  rcases multiCurrencyRule_mem hm with h' | h' | hm
  · subst h'; decide
  · subst h'; decide
  rcases highBalanceRule_mem hm with h' | h' | h' | h' | hm
  · subst h'; decide
  · subst h'; decide
  · subst h'; decide
  · subst h'; decide
  simp at hm

/-- C3: scenario A — a client with balance 7,000,000 and no transaction or
transfer rows gets exactly
`{Премиальная карта: 0.9, Депозит Сберегательный: 0.8, Инвестиции: 0.7,
Золотые слитки: 0.6}` from the rule-based scorer, and the selector with
threshold 0.5 picks the premium card. -/
theorem scenarioA_premium_card :
    get_comprehensive_client_profile tablesA 1 = .ok profileA ∧
    rule_based_classification profileA =
      [("Премиальная карта", 0.9), ("Депозит Сберегательный", 0.8),
       ("Инвестиции", 0.7), ("Золотые слитки", 0.6)] ∧
    select_product_type (rule_based_classification profileA) 0.5 = "Премиальная карта" :=
  ⟨buildA, by decide, by decide⟩

/-- C4: scenario B — with only the rows `Такси: 150000`, `Путешествия: 0`, the
travel-card rule never fires (the `'travel'`/`'transport'` substring test sees
the Russian keys), so the rule-based dict has no travel-card entry whatever the
balance; for a balance at which no other rule fires (600,000) the dict is
empty, at balance 0 the low-balance rule contributes the two credit products;
and the travel-card extractor computes `taxi_rides_count = 150000/2000 = 75`. -/
theorem scenarioB_taxi_travel :
    (∀ b : ℚ, get_comprehensive_client_profile (tablesB b) 1 = .ok (profileB b)) ∧
    (∀ b : ℚ, ∀ kv ∈ rule_based_classification (profileB b), kv.1 ≠ "Карта для путешествий") ∧
    rule_based_classification (profileB 600000) = [] ∧
    rule_based_classification (profileB 0) =
      [("Кредит наличными", 0.6), ("Кредитная карта", 0.75)] ∧
    (∀ current_month : String,
      extLookup "taxi_rides_count"
        (extract_product_specific_data clientDataB "Карта для путешествий" current_month) =
      some (ExtVal.i 75)) := by
  refine ⟨buildB, ?_, by decide, by decide, ?_⟩
  · intro b
    apply rule_based_no_travel
    have hc : (profileB b).category_spending = [("Путешествия", 0), ("Такси", 150000)] := rfl
    rw [hc]
    decide
  · intro current_month
    rfl

/-- Witness for `scenarioB_taxi_travel` at balance 0 and the first entry of the
resulting dict. -/
theorem scenarioB_taxi_travel_witness : ("Кредит наличными" : String) ≠ "Карта для путешествий" :=
  scenarioB_taxi_travel.2.1 0 ("Кредит наличными", 0.6) (by decide)

/-! ## Lemmas about the response parser -/

/-- `clamp01` lands in `[0, 1]`. -/
theorem clamp01_bounds (v : ℚ) : 0 ≤ clamp01 v ∧ clamp01 v ≤ 1 :=
  ⟨le_max_left 0 (min 1 v), max_le zero_le_one (min_le_left 1 v)⟩

/-- `pyClamp01` lands in `[0, 1]` on every Python float value. -/
theorem pyClamp01_bounds (f : PyFloatVal) : 0 ≤ pyClamp01 f ∧ pyClamp01 f ≤ 1 := by
  cases f with
  | fin q => exact clamp01_bounds q
  | pinf => exact ⟨zero_le_one, le_refl 1⟩
  | nan => exact ⟨zero_le_one, le_refl 1⟩
  | ninf => exact ⟨le_refl 0, zero_le_one⟩

/-- The normalization loop keeps the keys of the dict in order and, when it
succeeds, leaves every in-catalog key with a clamped numeric score. -/
theorem normalize_scores_spec : ∀ (kvs res : List (String × JsonVal)),
    normalize_scores kvs = some res →
    res.map Prod.fst = kvs.map Prod.fst ∧
    ∀ kv ∈ res, catalogNames.contains kv.1 = true →
      ∃ q : ℚ, kv.2 = JsonVal.num q ∧ 0 ≤ q ∧ q ≤ 1 := by
  intro kvs
  induction kvs with
  | nil =>
    intro res h
    injection h with h'
    subst h'
    exact ⟨rfl, by intro kv hkv; simp at hkv⟩
  | cons kv rest ih =>
    intro res h
    simp only [normalize_scores] at h
    by_cases hc : catalogNames.contains kv.1
    · rw [if_pos hc] at h
      cases hf : pyFloat kv.2 with
      | none => rw [hf] at h; exact absurd h (by simp)
      | some f =>
        rw [hf] at h
        dsimp only at h
        cases hn : normalize_scores rest with
        | none => rw [hn] at h; exact absurd h (by simp)
        | some r =>
          rw [hn] at h
          dsimp only at h
          injection h with h'
          subst h'
          obtain ⟨hkeys, hvals⟩ := ih r hn
          refine ⟨by simp [hkeys], ?_⟩
          intro z hz hcz
          rcases List.mem_cons.mp hz with rfl | hzr
          · exact ⟨pyClamp01 f, rfl, pyClamp01_bounds f⟩
          · exact hvals z hzr hcz
    · rw [if_neg hc] at h
      cases hn : normalize_scores rest with
      | none => rw [hn] at h; exact absurd h (by simp)
      | some r =>
        rw [hn] at h
        dsimp only at h
        injection h with h'
        subst h'
        obtain ⟨hkeys, hvals⟩ := ih r hn
        refine ⟨by simp [hkeys], ?_⟩
        intro z hz hcz
        rcases List.mem_cons.mp hz with rfl | hzr
        · exact absurd hcz hc
        · exact hvals z hzr hcz

/-- C2 (amended): `_parse_recommendations` takes the greedy span from the
first `\x7b` to the last `\x7d` of the response and feeds it to
`json.loads` — so text holding two objects fails to parse rather than
yielding the first balanced object; every failure (no match, JSON error, or
a `float(...)` failure on an in-catalog value) yields the empty dict; every
in-catalog key of a successful result carries a numeric score in `[0,1]`;
and keys outside the catalog are retained with their parsed values, not
dropped. -/
theorem parse_recommendations_spec (response_text : String) :
    (∀ kv ∈ parse_recommendations response_text, kv.1 ∈ catalogNames →
        ∃ q : ℚ, kv.2 = JsonVal.num q ∧ 0 ≤ q ∧ q ≤ 1) ∧
    (extractGreedy response_text.data = none → parse_recommendations response_text = []) ∧
    (∀ cs, extractGreedy response_text.data = some cs → json_loads_obj cs = none →
        parse_recommendations response_text = []) ∧
    (∀ cs kvs, extractGreedy response_text.data = some cs → json_loads_obj cs = some kvs →
        normalize_scores kvs = none → parse_recommendations response_text = []) ∧
    (∀ cs kvs res, extractGreedy response_text.data = some cs → json_loads_obj cs = some kvs →
        normalize_scores kvs = some res →
        (parse_recommendations response_text).map Prod.fst = kvs.map Prod.fst) := by
  refine ⟨?_, ?_, ?_, ?_, ?_⟩
  · intro kv h hcat
    unfold parse_recommendations at h
    cases hg : extractGreedy response_text.data with
    | none => rw [hg] at h; simp at h
    | some cs =>
      rw [hg] at h
      dsimp only at h
      cases hj : json_loads_obj cs with
      | none => rw [hj] at h; simp at h
      | some kvs =>
        rw [hj] at h
        dsimp only at h
        cases hn : normalize_scores kvs with
        | none => rw [hn] at h; simp at h
        | some res =>
          rw [hn] at h
          dsimp only at h
          exact (normalize_scores_spec kvs res hn).2 kv h (List.elem_iff.mpr hcat)
  · intro hg
    unfold parse_recommendations
    rw [hg]
  · intro cs hg hj
    unfold parse_recommendations
    rw [hg]
    dsimp only
    rw [hj]
  · intro cs kvs hg hj hn
    unfold parse_recommendations
    rw [hg]
    dsimp only
    rw [hj]
    dsimp only
    rw [hn]
  · intro cs kvs res hg hj hn
    unfold parse_recommendations
    rw [hg]
    dsimp only
    rw [hj]
    dsimp only
    rw [hn]
    exact (normalize_scores_spec kvs res hn).1

/-- Witness for `parse_recommendations_spec` on a concrete response using an
exponent score, `\x7b"Инвестиции": 5e-1\x7d`. -/
theorem parse_recommendations_spec_witness :
    ∃ q : ℚ, JsonVal.num ((1 : ℚ)/2) = JsonVal.num q ∧ 0 ≤ q ∧ q ≤ 1 := by
  have hm : parse_recommendations "\x7b\"Инвестиции\": 5e-1\x7d" =
      [("Инвестиции", JsonVal.num (1/2))] := rfl
  exact (parse_recommendations_spec "\x7b\"Инвестиции\": 5e-1\x7d").1
    ("Инвестиции", JsonVal.num (1/2)) (hm.symm ▸ List.mem_singleton.mpr rfl) (by decide)

/-- C2 counterexample: the response `\x7b"Foo": 0.5\x7d` parses to a dict
that keeps the off-catalog key `Foo` (the claim says such keys are absent
from the result), and a response holding two objects parses to the empty
dict although its first balanced object is well-formed (the regex span is
greedy, not first-balanced). -/
theorem parse_recommendations_counterexample :
    (("Foo", JsonVal.num ((1 : ℚ)/2)) ∈ parse_recommendations "\x7b\"Foo\": 0.5\x7d" ∧
      ("Foo" : String) ∉ catalogNames) ∧
    parse_recommendations "\x7b\"Инвестиции\": 0.5\x7d x \x7b\x7d" = [] := by
  refine ⟨⟨?_, by decide⟩, rfl⟩
  have hm : parse_recommendations "\x7b\"Foo\": 0.5\x7d" =
      [("Foo", JsonVal.num (1/2))] := rfl
  exact hm.symm ▸ List.mem_singleton.mpr rfl

/-! ## Error handling and aggregate emptiness -/

/-- C5: for a client code with no row in the client table, the profile builder
returns the `Client not found` error dict instead of raising, the error dict
propagates through `get_recommendations`, and the batch loop of `main` skips
the client without disturbing the rest of the run. -/
theorem not_found_propagates (t : Tables) (c : ℕ)
    (h : t.clients.find? (fun r => r.client_code == c) = none) :
    get_comprehensive_client_profile t c = .error "Client not found" ∧
    (∀ outcome threshold, get_recommendations t outcome c threshold = .error "Client not found") ∧
    (∀ outcome threshold codes1 codes2,
      run_batch t outcome (codes1 ++ c :: codes2) threshold =
      run_batch t outcome (codes1 ++ codes2) threshold) := by
  have h1 : get_comprehensive_client_profile t c = .error "Client not found" := by
    unfold get_comprehensive_client_profile
    rw [h]
  have h2 : ∀ outcome threshold,
      get_recommendations t outcome c threshold = .error "Client not found" := by
    intro outcome threshold
    unfold get_recommendations
    rw [h1]
  refine ⟨h1, h2, ?_⟩
  intro outcome threshold codes1 codes2
  unfold run_batch
  rw [List.foldl_append, List.foldl_append, List.foldl_cons]
  congr 1
  dsimp only
  rw [h2 outcome threshold]

/-- Witness for `not_found_propagates`: a one-client table queried for an
absent client id. -/
theorem not_found_propagates_witness :
    get_comprehensive_client_profile tablesA 2 = .error "Client not found" :=
  (not_found_propagates tablesA 2 (by decide)).1

/-- C6: zero matching rows yield the empty category-spending dict, the empty
type-spending dict, and the empty currency list — all as ordinary results, not
errors. -/
theorem empty_aggregates_on_no_rows (t : Tables) (c : ℕ) :
    (t.transactions.filter (fun r => r.client_code == c) = [] →
      get_category_spending t c = []) ∧
    (t.transfers.filter (fun r => r.client_code == c) = [] →
      get_type_spending t c = []) ∧
    (t.transactions.filter (fun r => r.client_code == c) = [] →
      t.transfers.filter (fun r => r.client_code == c) = [] →
      get_currencies_used t c = []) := by
  refine ⟨?_, ?_, ?_⟩
  · intro h
    simp only [get_category_spending]
    rw [h]
    rfl
  · intro h
    simp only [get_type_spending]
    rw [h]
    rfl
  · intro h1 h2
    simp only [get_currencies_used]
    rw [h1, h2]
    rfl

/-- A table with rows only for client 1, used to witness the aggregate
emptiness for a different client id. -/
def tablesW : Tables :=
  { clients := [],
    transactions := [⟨1, 0, "Такси", "KZT", 100⟩],
    transfers := [⟨1, 0, "salary_in", "KZT", 100⟩] }

/-- Witness for `empty_aggregates_on_no_rows`: client 2 has no rows in
`tablesW`. -/
theorem empty_aggregates_on_no_rows_witness :
    get_category_spending tablesW 2 = [] ∧ get_type_spending tablesW 2 = [] ∧
    get_currencies_used tablesW 2 = [] :=
  ⟨(empty_aggregates_on_no_rows tablesW 2).1 (by decide),
   (empty_aggregates_on_no_rows tablesW 2).2.1 (by decide),
   (empty_aggregates_on_no_rows tablesW 2).2.2 (by decide) (by decide)⟩

/-- The currency-exchange branch of the extractor, written out. -/
theorem extract_fx_branch (d : ClientData) (current_month : String) :
    extract_product_specific_data d "Обмен валют" current_month =
    base_data d ++
    [("fx_buy_count", ExtVal.i (pyInt ((lookupD d.top_5_type_spending "fx_buy" 0 : ℚ) / 1000000))),
     ("fx_sell_count", ExtVal.i (pyInt ((lookupD d.top_5_type_spending "fx_sell" 0 : ℚ) / 1000000))),
     ("main_foreign_currency", ExtVal.s
       (match (d.currencies.getD ["KZT"]).filter (fun curr => curr ≠ "KZT") with
        | [] => "иностранной валюте"
        | c :: _ => c))] := rfl

/-- C7: when every currency the client uses is `KZT`, the currency-exchange
extractor sets `main_foreign_currency` to the generic placeholder
`иностранной валюте`; when a non-KZT currency is present, it uses the first
one. -/
theorem fx_generic_placeholder (d : ClientData) (current_month : String) :
    ((∀ cur ∈ d.currencies.getD ["KZT"], cur = "KZT") →
      extLookup "main_foreign_currency"
        (extract_product_specific_data d "Обмен валют" current_month) =
      some (ExtVal.s "иностранной валюте")) ∧
    (∀ c0 rest, (d.currencies.getD ["KZT"]).filter (fun curr => curr ≠ "KZT") = c0 :: rest →
      extLookup "main_foreign_currency"
        (extract_product_specific_data d "Обмен валют" current_month) =
      some (ExtVal.s c0)) := by
  constructor
  · intro hall
    have hf : (d.currencies.getD ["KZT"]).filter (fun curr => curr ≠ "KZT") = [] := by
      apply List.filter_eq_nil_iff.mpr
      intro a ha
      simp [hall a ha]
    rw [extract_fx_branch, hf]
    rfl
  · intro c0 rest hc
    rw [extract_fx_branch, hc]
    rfl

/-- Witness for `fx_generic_placeholder` on the scenario B record, whose
currency list defaults to `["KZT"]`. -/
theorem fx_generic_placeholder_witness :
    extLookup "main_foreign_currency"
      (extract_product_specific_data clientDataB "Обмен валют" "august") =
    some (ExtVal.s "иностранной валюте") :=
  (fx_generic_placeholder clientDataB "august").1 (by decide)

/-- `normalize_product_name` is the identity away from the three mapped keys. -/
theorem normalize_product_name_of_not_key (s : String)
    (h1 : s ≠ "Депозит Мультивалютный") (h2 : s ≠ "Депозит Сберегательный")
    (h3 : s ≠ "Депозит Накопительный") : normalize_product_name s = s := by
  have hnone : product_mapping.find? (fun kv => kv.1 = s) = none := by
    apply List.find?_eq_none.mpr
    intro x hx
    simp only [product_mapping, List.mem_cons, List.not_mem_nil, or_false] at hx
    rcases hx with rfl | rfl | rfl <;>
      simp only [decide_eq_true_eq] <;> intro hh <;>
        first
          | exact h1 hh.symm
          | exact h2 hh.symm
          | exact h3 hh.symm
  unfold normalize_product_name
  rw [hnone]

/-- C9: `normalize_product_name` is idempotent, and it is the identity on
every string other than the three alternate-capitalization deposit names. -/
theorem normalize_product_name_idempotent (s : String) :
    normalize_product_name (normalize_product_name s) = normalize_product_name s ∧
    (s ∉ product_mapping.map Prod.fst → normalize_product_name s = s) := by
  constructor
  · by_cases h1 : s = "Депозит Мультивалютный"
    · subst h1; decide
    by_cases h2 : s = "Депозит Сберегательный"
    · subst h2; decide
    by_cases h3 : s = "Депозит Накопительный"
    · subst h3; decide
    have h := normalize_product_name_of_not_key s h1 h2 h3
    rw [h]
    exact h
  · intro hs
    simp only [product_mapping, List.map_cons, List.map_nil, List.mem_cons,
      List.not_mem_nil, or_false, not_or] at hs
    exact normalize_product_name_of_not_key s hs.1 hs.2.1 hs.2.2

/-- Witness for `normalize_product_name_idempotent` at a name outside the
mapped keys. -/
theorem normalize_product_name_idempotent_witness :
    normalize_product_name "Золотые слитки" = "Золотые слитки" :=
  (normalize_product_name_idempotent "Золотые слитки").2 (by decide)

/-- C10: every successful `get_recommendations` result has exactly the four
keys `product_type`, `top_5_category_spending`, `top_5_type_spending` and
`avg_monthly_balance`; in particular it has no `currencies` key, so the
downstream `client_data.get('currencies', ['KZT'])` on the batch record built
from it always falls back to `["KZT"]`. -/
theorem get_recommendations_output_shape (t : Tables) (outcome : LLMOutcome) (c : ℕ)
    (threshold : ℚ) (res : List (String × FieldVal))
    (h : get_recommendations t outcome c threshold = .ok res) :
    res.map Prod.fst =
      ["product_type", "top_5_category_spending", "top_5_type_spending", "avg_monthly_balance"] ∧
    "currencies" ∉ res.map Prod.fst ∧
    recordCurrencies (("client_code", FieldVal.i (c : ℤ)) :: res) = ["KZT"] := by
  unfold get_recommendations at h
  cases hp : get_comprehensive_client_profile t c with
  | error e =>
    rw [hp] at h
    exact absurd h (by simp)
  | ok profile =>
    rw [hp] at h
    dsimp only at h
    have hres := (Except.ok.injEq _ _).mp h
    subst hres
    refine ⟨rfl, ?_, rfl⟩
    show "currencies" ∉
      ["product_type", "top_5_category_spending", "top_5_type_spending", "avg_monthly_balance"]
    decide

/-- Witness for `get_recommendations_output_shape` on a concrete run. -/
theorem get_recommendations_output_shape_witness :
    recordCurrencies
      [("client_code", FieldVal.i ((1 : ℕ) : ℤ)),
       ("product_type", FieldVal.s "Премиальная карта"),
       ("top_5_category_spending", FieldVal.m []),
       ("top_5_type_spending", FieldVal.m []),
       ("avg_monthly_balance", FieldVal.i 7000000)] = ["KZT"] :=
  (get_recommendations_output_shape tablesA .unavailable 1 0.5 _ (by rfl)).2.2
